import Mathlib

/-!
Shallow embedding of `src/path_integration/model_lstm.py`.

The module defines an LSTM-based grid-cell model (`GridTorch`): truncated-normal
weight initialization, a forward recurrence over a time sequence, loading of
pretrained weights from files, and an L2 regularization accessor.

Modelling conventions:
* torch tensors are modelled as a shape (`List ℕ`) together with flat row-major
  data (`List ℚ`); reals are modelled by rationals.
* the irrational functions of the code (`np.sqrt` in `init_trunc_normal`, the
  sigmoid/tanh nonlinearities inside `nn.LSTM`, the square root inside
  `Tensor.norm(2)`) are abstracted as explicit function parameters.
* randomness (`normal_()`, `kaiming_uniform_`, dropout masks) is passed in
  explicitly as sampling data.
* the file system seen by `np.load` is a partial map from file names to arrays;
  a missing file is a `FileNotFoundError`, modelled with `Except`.
* shape errors raised by torch operations are modelled as `Except.error`.
-/

namespace ModelLSTM

abbrev Vec := List ℚ
abbrev Mat := List (List ℚ)

/-- A numpy array as produced by `np.load`: 1-D (bias) or 2-D (weight). -/
inductive NpArray where
  | a1 (v : Vec)
  | a2 (m : Mat)
deriving DecidableEq

/-- numpy transpose `.T`: identity on 1-D arrays, matrix transpose on 2-D. -/
def NpArray.T : NpArray → NpArray
  | .a1 v => .a1 v
  | .a2 m => .a2 m.transpose

/-- A torch tensor: a shape together with the flat row-major data. -/
structure Tensor where
  shape : List ℕ
  data : List ℚ
deriving DecidableEq

def dot (a b : Vec) : ℚ := (List.zipWith (· * ·) a b).sum

def addVec (a b : Vec) : Vec := List.zipWith (· + ·) a b

/-- Matrix-vector product, checking that every row of `W` matches `v` in length
(torch raises a shape error otherwise). -/
def matvec (W : Mat) (v : Vec) : Option Vec :=
  if W.all (fun row => row.length = v.length) then some (W.map (fun row => dot row v))
  else none

/-- Split a flat list into consecutive chunks of length `k`. -/
def chunkList (k : ℕ) (l : List ℚ) : List Vec :=
  (List.range (l.length / k)).map (fun i => (l.drop (i * k)).take k)

/-- View a batch-major matrix as a 2-D tensor. -/
def Tensor.ofMat (m : Mat) : Tensor :=
  ⟨[m.length, (m.headD []).length], m.flatten⟩

/-- torch `squeeze()`: remove every dimension of size 1. -/
def Tensor.squeeze (t : Tensor) : Tensor :=
  ⟨t.shape.filter (fun n => n != 1), t.data⟩

/-- torch `unsqueeze(0)`: prepend a dimension of size 1. -/
def Tensor.unsqueeze0 (t : Tensor) : Tensor :=
  ⟨1 :: t.shape, t.data⟩

/-- torch `cat((a, b), dim=1)` for two batch-major matrices: rows are joined
pairwise; the batch dimensions must agree. -/
def cat1 (a b : Mat) : Except String Mat :=
  if a.length = b.length then .ok (List.zipWith (· ++ ·) a b)
  else .error "RuntimeError: torch.cat sizes of tensors must match"

/-- torch `t.view(1, batch_size, -1)` on a step-input matrix `t`. -/
def view1B (t : Mat) (B : ℕ) : Except String Tensor :=
  let flat := t.flatten
  if B ≠ 0 ∧ flat.length % B = 0 then .ok ⟨[1, B, flat.length / B], flat⟩
  else .error "RuntimeError: shape is invalid for input size"

/-- torch `stack`: all shapes must agree and the list must be non-empty. -/
def stack (ts : List Tensor) : Except String Tensor :=
  match ts with
  | [] => .error "RuntimeError: stack expects a non-empty TensorList"
  | t :: rest =>
    if rest.all (fun u => u.shape == t.shape) then
      .ok ⟨ts.length :: t.shape, (ts.map Tensor.data).flatten⟩
    else .error "RuntimeError: stack expects each tensor to be equal size"

/-- `nn.Linear(in_features, out_features, bias)`: `weight` is
out_features × in_features; `bias = none` models `bias=False`. -/
structure Linear where
  weight : Mat
  bias : Option Vec
deriving DecidableEq

def Linear.applyVec (l : Linear) (v : Vec) : Option Vec :=
  (matvec l.weight v).map (fun y =>
    match l.bias with
    | some b => addVec y b
    | none => y)

/-- `nn.Linear` applied to the last dimension of a tensor. -/
def Linear.applyT (l : Linear) (t : Tensor) : Except String Tensor :=
  match t.shape.getLast? with
  | none => .error "RuntimeError: linear on zero-dimensional input"
  | some k =>
    match (chunkList k t.data).mapM l.applyVec with
    | none => .error "RuntimeError: mat1 and mat2 shapes cannot be multiplied"
    | some ys => .ok ⟨t.shape.dropLast ++ [l.weight.length], ys.flatten⟩

/-- `nn.LSTM(input_size=3, hidden_size=nh_lstm)` with one layer.  The gate
parameters used by the forward pass are `weight_ih_l0`, `weight_hh_l0`,
`bias_ih_l0`, `bias_hh_l0` (each weight is (4*hidden) × in).  The `weight` and
`bias` fields model the extra python attributes of the same names that
`init_weights_from_file` creates by plain assignment; the computation of
`nn.LSTM` never reads them. -/
structure LSTMModule where
  weight_ih_l0 : Mat
  weight_hh_l0 : Mat
  bias_ih_l0 : Vec
  bias_hh_l0 : Vec
  weight : Option Mat
  bias : Option Vec
deriving DecidableEq

def LSTMModule.input_size (l : LSTMModule) : ℕ := (l.weight_ih_l0.headD []).length

def LSTMModule.hidden_size (l : LSTMModule) : ℕ := (l.weight_hh_l0.headD []).length

/-- One LSTM cell update on a single batch element (gate order i, f, g, o as in
torch), with sigmoid and tanh abstracted as `σ` and `τ`. -/
def lstmCell (lstm : LSTMModule) (σ τ : ℚ → ℚ) (x h c : Vec) : Vec × Vec :=
  let H := lstm.hidden_size
  let gates := addVec (addVec ((matvec lstm.weight_ih_l0 x).getD []) lstm.bias_ih_l0)
                      (addVec ((matvec lstm.weight_hh_l0 h).getD []) lstm.bias_hh_l0)
  let i := (gates.take H).map σ
  let f := ((gates.drop H).take H).map σ
  let g := ((gates.drop (2 * H)).take H).map τ
  let o := ((gates.drop (3 * H)).take H).map σ
  let c' := addVec (List.zipWith (· * ·) f c) (List.zipWith (· * ·) i g)
  let h' := List.zipWith (· * ·) o (c'.map τ)
  (h', c')

/-- `nn.LSTM` forward with explicit `(hx, cx)`: torch first checks that the
input is 3-D with last dimension `input_size` and that the hidden and cell
states have shape (num_layers, batch, hidden_size) = `[1, B, H]`, then runs the
cell over the time steps.  Returns the final `(h_n, c_n)` (the per-step output
sequence is discarded by the caller). -/
def LSTMModule.forward (lstm : LSTMModule) (σ τ : ℚ → ℚ) (input hx cx : Tensor) :
    Except String (Tensor × Tensor) :=
  match input.shape with
  | [_, B, F] =>
    if F ≠ lstm.input_size then
      .error "RuntimeError: input.size(-1) must be equal to input_size"
    else
      let H := lstm.hidden_size
      if hx.shape ≠ [1, B, H] then
        .error "RuntimeError: Expected hidden[0] size mismatch"
      else if cx.shape ≠ [1, B, H] then
        .error "RuntimeError: Expected hidden[1] size mismatch"
      else
        let steps : List (List Vec) := (chunkList (B * F) input.data).map (chunkList F)
        let start : List Vec × List Vec := (chunkList H hx.data, chunkList H cx.data)
        let final := steps.foldl
          (fun st xs =>
            let hc := List.zipWith (fun x p => lstmCell lstm σ τ x p.1 p.2) xs (st.1.zip st.2)
            (hc.map Prod.fst, hc.map Prod.snd)) start
        .ok (⟨[1, B, H], final.1.flatten⟩, ⟨[1, B, H], final.2.flatten⟩)
  | _ => .error "RuntimeError: LSTM input must have 3 dimensions"

/-- `nn.Dropout(p)`: in training mode each element is zeroed according to the
random mask and the survivors are rescaled by 1/(1-p); in evaluation mode the
input passes through unchanged. -/
def dropoutApply (p : ℚ) (training : Bool) (mask : ℕ → Bool) (t : Tensor) : Tensor :=
  if training then ⟨t.shape, t.data.mapIdx (fun i v => if mask i then 0 else v / (1 - p))⟩
  else t

/-- `valid.max(-1, keepdim=True)[1]` on a boolean row: the index of the first
maximal entry (the first `true` when one exists, else index 0). -/
def selectIndex (valid : List Bool) : ℕ :=
  let i := valid.findIdx (fun b => b)
  if i < valid.length then i else 0

/-- The per-element core of `truncated_normal_`: among the 4 candidate draws,
`valid = (tmp < 2) & (tmp > -2)` is computed and `gather` picks the candidate
at the argmax of `valid`. -/
def selectDraw (draws : List ℚ) : ℚ :=
  let valid := draws.map (fun v => decide (v < 2 ∧ -2 < v))
  draws.getD (selectIndex valid) 0

/-- `truncated_normal_` on one tensor element: the selected draw is scaled by
`std` and shifted by `mean` (`tensor.data.mul_(std).add_(mean)`). -/
def truncNormalValue (draws : List ℚ) (mean std : ℚ) : ℚ :=
  selectDraw draws * std + mean

/-- `truncated_normal_(tensor, mean, std)` on a rows × cols weight tensor,
with the standard-normal draws of `new_empty(size + (4,)).normal_()` supplied
as `draws i j` (the 4 candidates for element (i, j)). -/
def truncNormalMatrix (rows cols : ℕ) (draws : ℕ → ℕ → List ℚ) (mean std : ℚ) : Mat :=
  (List.range rows).map (fun i => (List.range cols).map (fun j => truncNormalValue (draws i j) mean std))

/-- `init_trunc_normal(t, size)`: truncated normal with mean 0 and
`std = 1.0/np.sqrt(size)`; the irrational square root is abstracted by the
parameter `invSqrt`, where `invSqrt n` stands for `1/√n`. -/
def init_trunc_normal (invSqrt : ℕ → ℚ) (rows cols : ℕ) (draws : ℕ → ℕ → List ℚ)
    (size : ℕ) : Mat :=
  truncNormalMatrix rows cols draws 0 (invSqrt size)

/-- A target ensemble descriptor: an external object exposing `n_cells`. -/
structure Ensemble where
  n_cells : ℕ
deriving DecidableEq

/-- The keyword arguments of `GridTorch.__init__` (`weights_loc` is kept as a
separate argument of the constructor function). -/
structure GridConfig where
  nh_lstm : ℕ := 128
  nh_bottleneck : ℕ := 256
  n_pcs : ℕ := 256
  n_hdcs : ℕ := 12
  dropoutrates_bottleneck : ℚ := 1/2
  bottleneck_has_bias : Bool := false
deriving DecidableEq

/-- The model: five linear maps, the recurrent cell, the dropout rate and the
`nn.Module` training flag (`True` after construction). -/
structure GridTorch where
  target_ensembles : List Ensemble
  state_embed : Linear
  cell_embed : Linear
  lstm : LSTMModule
  bottleneck : Linear
  pc_logits : Linear
  hd_logits : Linear
  dropoutrates_bottleneck : ℚ
  training : Bool
deriving DecidableEq

/-- torch `weight.norm(2)` squared: the sum of the squares of all entries of
the (flattened) tensor. -/
def normSq (m : Mat) : ℚ := (m.flatten.map (fun x => x * x)).sum

/-- The `l2_loss` property:
`bottleneck.weight.norm(2) + pc_logits.weight.norm(2) + hd_logits.weight.norm(2)`,
with the irrational square root of `norm(2)` abstracted by `sqrt`. -/
def GridTorch.l2_loss (sqrt : ℚ → ℚ) (m : GridTorch) : ℚ :=
  sqrt (normSq m.bottleneck.weight) + sqrt (normSq m.pc_logits.weight) +
    sqrt (normSq m.hd_logits.weight)

/-- `np.load`: look the file name up in the file system; a missing file raises
`FileNotFoundError`. -/
def np_load (fs : String → Option NpArray) (name : String) : Except String NpArray :=
  match fs name with
  | some a => .ok a
  | none => .error ("FileNotFoundError: " ++ name)

/-- `nn.Parameter(torch.Tensor(np.load(name).T))` for a 2-D weight file. -/
def loadWeight (fs : String → Option NpArray) (name : String) : Except String Mat := do
  let a ← np_load fs name
  match a.T with
  | .a2 m => .ok m
  | .a1 _ => .error ("RuntimeError: expected a 2-D array in " ++ name)

/-- `nn.Parameter(torch.Tensor(np.load(name).T))` for a 1-D bias file
(numpy `.T` is the identity on 1-D arrays). -/
def loadBias (fs : String → Option NpArray) (name : String) : Except String Vec := do
  let a ← np_load fs name
  match a.T with
  | .a1 v => .ok v
  | .a2 _ => .error ("RuntimeError: expected a 1-D array in " ++ name)

/-- The file names `init_weights_from_file` reads, in program order
(the f-strings of the source prepend `loc` to each component name). -/
def weightFileNames (loc : String) : List String :=
  [ loc ++ "grid_cells_core_pc_logits_w_0.npy"
  , loc ++ "grid_cells_core_pc_logits_b_0.npy"
  , loc ++ "grid_cells_core_pc_logits_1_w_0.npy"
  , loc ++ "grid_cells_core_pc_logits_1_b_0.npy"
  , loc ++ "grid_cells_core_bottleneck_w_0.npy"
  , loc ++ "grid_cell_supervised_state_init_w_0.npy"
  , loc ++ "grid_cell_supervised_state_init_b_0.npy"
  , loc ++ "grid_cell_supervised_cell_init_w_0.npy"
  , loc ++ "grid_cell_supervised_cell_init_b_0.npy"
  , loc ++ "grid_cells_core_lstm_w_gates_0.npy"
  , loc ++ "grid_cells_core_lstm_b_gates_0.npy" ]

/-- `GridTorch.init_weights_from_file(loc)`: load the arrays in program order
(stopping at the first missing file) and assign them.  Note that the last two
assignments write the fresh attributes `self.lstm.weight` and `self.lstm.bias`,
not the gate parameters `weight_ih_l0`/`weight_hh_l0`/`bias_ih_l0`/`bias_hh_l0`
that the LSTM forward uses; `lstm_ws.transpose(1, 0)` undoes the numpy `.T`. -/
def GridTorch.init_weights_from_file (m : GridTorch) (loc : String)
    (fs : String → Option NpArray) : Except String GridTorch := do
  let pcw ← loadWeight fs (loc ++ "grid_cells_core_pc_logits_w_0.npy")
  let pcb ← loadBias fs (loc ++ "grid_cells_core_pc_logits_b_0.npy")
  let hdw ← loadWeight fs (loc ++ "grid_cells_core_pc_logits_1_w_0.npy")
  let hdb ← loadBias fs (loc ++ "grid_cells_core_pc_logits_1_b_0.npy")
  let bw ← loadWeight fs (loc ++ "grid_cells_core_bottleneck_w_0.npy")
  let sw ← loadWeight fs (loc ++ "grid_cell_supervised_state_init_w_0.npy")
  let sb ← loadBias fs (loc ++ "grid_cell_supervised_state_init_b_0.npy")
  let cw ← loadWeight fs (loc ++ "grid_cell_supervised_cell_init_w_0.npy")
  let cb ← loadBias fs (loc ++ "grid_cell_supervised_cell_init_b_0.npy")
  let lstm_ws ← loadWeight fs (loc ++ "grid_cells_core_lstm_w_gates_0.npy")
  let lstm_bs ← loadBias fs (loc ++ "grid_cells_core_lstm_b_gates_0.npy")
  .ok { m with
    pc_logits := { weight := pcw, bias := some pcb }
    hd_logits := { weight := hdw, bias := some hdb }
    bottleneck := { m.bottleneck with weight := bw }
    state_embed := { weight := sw, bias := some sb }
    cell_embed := { weight := cw, bias := some cb }
    lstm := { m.lstm with weight := some lstm_ws.transpose, bias := some lstm_bs } }

/-- The randomness consumed by `GridTorch.__init__`: per truncated-normal layer
(0 = state_embed, 1 = cell_embed, 2 = bottleneck, 3 = pc_logits, 4 = hd_logits)
the 4 standard-normal candidates for each weight entry; the
`kaiming_uniform_` samples for the two LSTM gate weights; and the default
`nn.Linear` bias samples (kept by the bottleneck when it has a bias). -/
structure InitRng where
  draws : ℕ → ℕ → ℕ → List ℚ
  kaiming_ih : ℕ → ℕ → ℚ
  kaiming_hh : ℕ → ℕ → ℚ
  default_bias : ℕ → ℚ

def mkMat (rows cols : ℕ) (f : ℕ → ℕ → ℚ) : Mat :=
  (List.range rows).map (fun i => (List.range cols).map (f i))

def zeros (n : ℕ) : Vec := List.replicate n 0

/-- `GridTorch.__init__`: build the layers, apply the initialization scheme
(truncated normal with the hard-coded sizes 128, 128, 256, 256, 12; Kaiming
uniform on the LSTM gate weights; zero biases), then call
`init_weights_from_file` when `if weights_loc:` is truthy — that is, when the
location is given and is not the empty string (Python's `None` and `""` are
both falsy and skip the load).  Reading `target_ensembles[0]` or
`target_ensembles[1]` on a too-short list raises `IndexError`. -/
def GridTorch.init (cfg : GridConfig) (target_ensembles : List Ensemble) (rng : InitRng)
    (invSqrt : ℕ → ℚ) (weights_loc : Option String) (fs : String → Option NpArray) :
    Except String GridTorch := do
  let e0 ← match target_ensembles[0]? with
    | some e => Except.ok e
    | none => Except.error "IndexError: list index out of range"
  let e1 ← match target_ensembles[1]? with
    | some e => Except.ok e
    | none => Except.error "IndexError: list index out of range"
  let m : GridTorch := {
    target_ensembles := target_ensembles
    state_embed := {
      weight := init_trunc_normal invSqrt cfg.nh_lstm (cfg.n_pcs + cfg.n_hdcs) (rng.draws 0) 128
      bias := some (zeros cfg.nh_lstm) }
    cell_embed := {
      weight := init_trunc_normal invSqrt cfg.nh_lstm (cfg.n_pcs + cfg.n_hdcs) (rng.draws 1) 128
      bias := some (zeros cfg.nh_lstm) }
    lstm := {
      weight_ih_l0 := mkMat (4 * cfg.nh_lstm) 3 rng.kaiming_ih
      weight_hh_l0 := mkMat (4 * cfg.nh_lstm) cfg.nh_lstm rng.kaiming_hh
      bias_ih_l0 := zeros (4 * cfg.nh_lstm)
      bias_hh_l0 := zeros (4 * cfg.nh_lstm)
      weight := none
      bias := none }
    bottleneck := {
      weight := init_trunc_normal invSqrt cfg.nh_bottleneck cfg.nh_lstm (rng.draws 2) 256
      bias := if cfg.bottleneck_has_bias then
          some ((List.range cfg.nh_bottleneck).map rng.default_bias)
        else none }
    pc_logits := {
      weight := init_trunc_normal invSqrt e0.n_cells cfg.nh_bottleneck (rng.draws 3) 256
      bias := some (zeros e0.n_cells) }
    hd_logits := {
      weight := init_trunc_normal invSqrt e1.n_cells cfg.nh_bottleneck (rng.draws 4) 12
      bias := some (zeros e1.n_cells) }
    dropoutrates_bottleneck := cfg.dropoutrates_bottleneck
    training := true }
  match weights_loc with
  | some loc => if loc = "" then .ok m else m.init_weights_from_file loc fs
  | none => .ok m

/-- The body of the `for t in x` loop of `GridTorch.forward`, carrying the
recurrent state across the steps and collecting the five per-step lists in
order; `dropout i` is the behavior of the `self.dropout` module call at step
`i` (fresh randomness per step). -/
def GridTorch.forwardLoop (m : GridTorch) (σ τ : ℚ → ℚ) (dropout : ℕ → Tensor → Tensor)
    (batch_size : ℕ) :
    ℕ → Tensor → Tensor → List Mat →
    Except String (List Tensor × List Tensor × List Tensor × List Tensor × List Tensor)
  | _, _, _, [] => .ok ([], [], [], [], [])
  | i, h_t, c_t, t :: rest => do
    let input ← view1B t batch_size
    let hc ← m.lstm.forward σ τ input h_t.unsqueeze0 c_t.unsqueeze0
    let h' := hc.1.squeeze
    let c' := hc.2.squeeze
    let pre ← m.bottleneck.applyT h'
    let bact := dropout i pre
    let pc ← m.pc_logits.applyT bact
    let hd ← m.hd_logits.applyT bact
    let tail ← m.forwardLoop σ τ dropout batch_size (i + 1) h' c' rest
    .ok (hd :: tail.1, pc :: tail.2.1, bact :: tail.2.2.1, h' :: tail.2.2.2.1,
         c' :: tail.2.2.2.2)

/-- `GridTorch.forward(x, initial_conds)`: `x` is the time-major sequence of
batch-major step inputs, `initial_conds` the pair of batch-major
initial-condition matrices; `mask i` is the dropout randomness of step `i`.
Returns the five stacked output sequences (head-direction logits, place-cell
logits, bottleneck activations, hidden states, cell states). -/
def GridTorch.forward (m : GridTorch) (σ τ : ℚ → ℚ) (mask : ℕ → ℕ → Bool)
    (x : List Mat) (initial_conds : Mat × Mat) :
    Except String (Tensor × Tensor × Tensor × Tensor × Tensor) := do
  let batch_size := (x.headD []).length
  let init ← cat1 initial_conds.1 initial_conds.2
  let init_state ← m.state_embed.applyT (Tensor.ofMat init)
  let init_cell ← m.cell_embed.applyT (Tensor.ofMat init)
  let outs ← m.forwardLoop σ τ
    (fun i t => dropoutApply m.dropoutrates_bottleneck m.training (mask i) t)
    batch_size 0 init_state init_cell x
  let logits_hd ← stack outs.1
  let logits_pc ← stack outs.2.1
  let bottleneck_acts ← stack outs.2.2.1
  let rnn_states ← stack outs.2.2.2.1
  let cell_states ← stack outs.2.2.2.2
  .ok (logits_hd, logits_pc, bottleneck_acts, rnn_states, cell_states)

/-- Modelled from the spec: the selection rule the specification describes for
`truncated_normal_` — the first draw strictly inside (-2, 2), and otherwise the
nearest-out-of-range draw (the one of least distance to the interval, the
earliest on a tie).  Kept separate to compare against the code's `selectDraw`. -/
def specTruncSelect (draws : List ℚ) : ℚ :=
  match draws.find? (fun v => decide (v < 2 ∧ -2 < v)) with
  | some v => v
  | none =>
    match draws with
    | [] => 0
    | d :: rest => rest.foldl (fun best v => if distToRange v < distToRange best then v else best) d
where
  /-- Distance of a value to the interval [-2, 2]. -/
  distToRange (v : ℚ) : ℚ := max (v - 2) (max (-2 - v) 0)

/-- The five input widths of the linear layers, in initialization order
(state_embed, cell_embed, bottleneck, pc_logits, hd_logits), read off the
`nn.Linear` declarations. -/
def layerInputWidths (cfg : GridConfig) : List ℕ :=
  [cfg.n_pcs + cfg.n_hdcs, cfg.n_pcs + cfg.n_hdcs, cfg.nh_lstm, cfg.nh_bottleneck,
   cfg.nh_bottleneck]

/-- The keyword-argument defaults of `GridTorch.__init__`. -/
def defaultConfig : GridConfig := {}

/-! Concrete instances used to evaluate the model at specific inputs. -/

/-- An all-zero rows × cols matrix. -/
def zMat (r c : ℕ) : Mat := List.replicate r (List.replicate c 0)

/-- The spec's scenario model: `target_ensembles = [{n_cells: 4}, {n_cells: 2}]`,
recurrent width 8, bottleneck width 8 (hence `n_pcs = 4`, `n_hdcs = 2` so the
initial conditions of widths 4 and 2 fit the embedding layers), in evaluation
mode, with all parameters zero. -/
def sModel : GridTorch := {
  target_ensembles := [⟨4⟩, ⟨2⟩]
  state_embed := { weight := zMat 8 6, bias := some (zeros 8) }
  cell_embed := { weight := zMat 8 6, bias := some (zeros 8) }
  lstm := { weight_ih_l0 := zMat 32 3, weight_hh_l0 := zMat 32 8,
            bias_ih_l0 := zeros 32, bias_hh_l0 := zeros 32, weight := none, bias := none }
  bottleneck := { weight := zMat 8 8, bias := none }
  pc_logits := { weight := zMat 4 8, bias := some (zeros 4) }
  hd_logits := { weight := zMat 2 8, bias := some (zeros 2) }
  dropoutrates_bottleneck := 0
  training := false }

/-- The scenario input sequence: length 5, batch size 1, feature width 3. -/
def sX : List Mat := List.replicate 5 [[0, 0, 0]]

/-- The scenario initial conditions: batch-major, widths 4 and 2. -/
def sIC : Mat × Mat := ([[0, 0, 0, 0]], [[0, 0]])

/-- A batch-size-2 input sequence of length 5 for the same scenario model. -/
def sX2 : List Mat := List.replicate 5 [[0, 0, 0], [0, 0, 0]]

/-- Batch-size-2 initial conditions of widths 4 and 2. -/
def sIC2 : Mat × Mat := ([[0, 0, 0, 0], [0, 0, 0, 0]], [[0, 0], [0, 0]])

/-- A small fully-materialized model (widths 1 and 2) used to exercise the
weight-loading path; the LSTM gate parameters are filled with 1s so that an
assignment from the loaded files would be visible. -/
def m0 : GridTorch := {
  target_ensembles := [⟨1⟩, ⟨1⟩]
  state_embed := { weight := [[7, 7]], bias := some [7] }
  cell_embed := { weight := [[7, 7]], bias := some [7] }
  lstm := { weight_ih_l0 := [[1, 1, 1]], weight_hh_l0 := [[1]],
            bias_ih_l0 := [1], bias_hh_l0 := [1], weight := none, bias := none }
  bottleneck := { weight := [[7]], bias := none }
  pc_logits := { weight := [[7]], bias := some [7] }
  hd_logits := { weight := [[7]], bias := some [7] }
  dropoutrates_bottleneck := 0
  training := true }

/-- A weight directory holding all eleven arrays, with pairwise recognizable
contents (the gate-weight file holds the 1 × 4 array [[11, 12, 13, 14]]). -/
def fsFull : String → Option NpArray := fun s =>
  ((weightFileNames "").zip
    [NpArray.a2 [[1]], NpArray.a1 [2], NpArray.a2 [[3]], NpArray.a1 [4], NpArray.a2 [[5]],
     NpArray.a2 [[6]], NpArray.a1 [7], NpArray.a2 [[8]], NpArray.a1 [9],
     NpArray.a2 [[11, 12, 13, 14]], NpArray.a1 [15, 16, 17, 18]]).lookup s

/-- The model `m0` after a successful load from `fsFull` (the record the load
produces: linear layers from the transposed file contents, the LSTM gate
parameters untouched, the loaded gate arrays parked in the fresh attributes). -/
def m1 : GridTorch := {
  target_ensembles := [⟨1⟩, ⟨1⟩]
  state_embed := { weight := [[6]], bias := some [7] }
  cell_embed := { weight := [[8]], bias := some [9] }
  lstm := { weight_ih_l0 := [[1, 1, 1]], weight_hh_l0 := [[1]],
            bias_ih_l0 := [1], bias_hh_l0 := [1],
            weight := some [[11, 12, 13, 14]], bias := some [15, 16, 17, 18] }
  bottleneck := { weight := [[5]], bias := none }
  pc_logits := { weight := [[1]], bias := some [2] }
  hd_logits := { weight := [[3]], bias := some [4] }
  dropoutrates_bottleneck := 0
  training := true }

/-- A weight directory holding only the first eight of the eleven arrays. -/
def fs8 : String → Option NpArray := fun s =>
  (((weightFileNames "").take 8).zip
    [NpArray.a2 [[1]], NpArray.a1 [2], NpArray.a2 [[3]], NpArray.a1 [4], NpArray.a2 [[5]],
     NpArray.a2 [[6]], NpArray.a1 [7], NpArray.a2 [[8]]]).lookup s

/-- A minimal configuration in which every layer has width 1. -/
def tinyCfg : GridConfig :=
  { nh_lstm := 1, nh_bottleneck := 1, n_pcs := 1, n_hdcs := 1,
    dropoutrates_bottleneck := 0 }

/-- Initialization randomness in which every truncated-normal candidate draw is
the in-range value 1 and the Kaiming and default-bias samples are 0. -/
def rng1 : InitRng :=
  { draws := fun _ _ _ => [1, 1, 1, 1], kaiming_ih := fun _ _ => 0,
    kaiming_hh := fun _ _ => 0, default_bias := fun _ => 0 }

/-- Initialization randomness in which every place-cell-layer candidate draw is
the far-out-of-range value 100 and every other draw is the in-range value 1. -/
def rng100 : InitRng :=
  { draws := fun layer _ _ => if layer = 3 then [100, 100, 100, 100] else [1, 1, 1, 1],
    kaiming_ih := fun _ _ => 0, kaiming_hh := fun _ _ => 0, default_bias := fun _ => 0 }

/-- A plausible stand-in for `n ↦ 1/√n` at the sizes the initialization uses:
exact at 256 (1/16) and 1 (1), close rational approximations elsewhere. -/
def invSqrtApprox : ℕ → ℚ := fun n =>
  if n = 256 then 1/16 else if n = 128 then 3/34 else if n = 12 then 2/7 else 1

/-- Entry (i, j) of a weight matrix. -/
def matEntry (m : Mat) (i j : ℕ) : ℚ := (m.getD i []).getD j 0

/-- The model produced at `tinyCfg` from `rng1` with `invSqrt = Nat.cast`:
every truncated-normal weight entry equals the size that was passed to
`init_trunc_normal` (1 · invSqrt size + 0). -/
def MC4 : GridTorch := {
  target_ensembles := [⟨1⟩, ⟨1⟩]
  state_embed := { weight := [[128, 128]], bias := some [0] }
  cell_embed := { weight := [[128, 128]], bias := some [0] }
  lstm := { weight_ih_l0 := [[0, 0, 0], [0, 0, 0], [0, 0, 0], [0, 0, 0]],
            weight_hh_l0 := [[0], [0], [0], [0]],
            bias_ih_l0 := [0, 0, 0, 0], bias_hh_l0 := [0, 0, 0, 0],
            weight := none, bias := none }
  bottleneck := { weight := [[256]], bias := none }
  pc_logits := { weight := [[256]], bias := some [0] }
  hd_logits := { weight := [[12]], bias := some [0] }
  dropoutrates_bottleneck := 0
  training := true }

/-- The model produced at `tinyCfg` from `rng1` with `invSqrt ≡ 0`: all
truncated-normal weight entries are 0. -/
def M0 : GridTorch := {
  target_ensembles := [⟨1⟩, ⟨1⟩]
  state_embed := { weight := [[0, 0]], bias := some [0] }
  cell_embed := { weight := [[0, 0]], bias := some [0] }
  lstm := { weight_ih_l0 := [[0, 0, 0], [0, 0, 0], [0, 0, 0], [0, 0, 0]],
            weight_hh_l0 := [[0], [0], [0], [0]],
            bias_ih_l0 := [0, 0, 0, 0], bias_hh_l0 := [0, 0, 0, 0],
            weight := none, bias := none }
  bottleneck := { weight := [[0]], bias := none }
  pc_logits := { weight := [[0]], bias := some [0] }
  hd_logits := { weight := [[0]], bias := some [0] }
  dropoutrates_bottleneck := 0
  training := true }

/-- A variant of `m0` agreeing with it on the bottleneck, place-cell-logit and
head-direction-logit weights but differing in every other component. -/
def m0var : GridTorch := {
  target_ensembles := [⟨1⟩, ⟨1⟩, ⟨3⟩]
  state_embed := { weight := [[4, 5]], bias := some [6] }
  cell_embed := { weight := [[2, 3]], bias := none }
  lstm := { weight_ih_l0 := [[9, 9, 9]], weight_hh_l0 := [[9]],
            bias_ih_l0 := [9], bias_hh_l0 := [9], weight := some [[2]], bias := some [2] }
  bottleneck := { weight := [[7]], bias := some [1] }
  pc_logits := { weight := [[7]], bias := some [8] }
  hd_logits := { weight := [[7]], bias := some [9] }
  dropoutrates_bottleneck := 1
  training := false }

/-! Basic lemmas about the embedding. -/

@[simp] theorem exceptOkBind {α β : Type} (a : α) (f : α → Except String β) :
    (Except.ok a >>= f : Except String β) = f a := rfl

@[simp] theorem exceptErrorBind {α β : Type} (e : String) (f : α → Except String β) :
    ((Except.error e : Except String α) >>= f) = .error e := rfl

/-- The index selected by the boolean argmax, fed back into `gather`: the
first draw satisfying the predicate when there is one, else the first draw. -/
theorem getD_selectIndex (p : ℚ → Bool) (l : List ℚ) :
    l.getD (selectIndex (l.map p)) 0 =
      match l.find? p with
      | some v => v
      | none => l.headD 0 := by
  induction l with
  | nil => rfl
  | cons d rest ih =>
    by_cases hp : p d
    · simp [selectIndex, List.findIdx_cons, hp, List.find?_cons]
    · have hp' : p d = false := by simpa using hp
      rcases hfind : rest.find? p with - | v
      · have hall : ∀ x ∈ rest, ¬ (p x = true) := by
          intro x hx
          simpa using List.find?_eq_none.mp hfind x hx
        have hlen : (rest.map p).findIdx (fun b => b) = (rest.map p).length := by
          refine List.findIdx_eq_length.mpr ?_
          intro b hb
          rcases List.mem_map.mp hb with ⟨x, hx, rfl⟩
          simpa using hall x hx
        simp [selectIndex, List.findIdx_cons, hp', hlen, List.find?_cons, hfind]
      · have hex : ∃ x ∈ rest.map p, (fun b => b) x = true := by
          refine ⟨p v, List.mem_map.mpr ⟨v, List.mem_of_find?_eq_some hfind, rfl⟩, ?_⟩
          simpa using List.find?_some hfind
        have hlt : (rest.map p).findIdx (fun b => b) < (rest.map p).length :=
          List.findIdx_lt_length_of_exists hex
        have h1 : selectIndex ((d :: rest).map p) =
            (rest.map p).findIdx (fun b => b) + 1 := by
          simp only [selectIndex, List.map_cons, List.findIdx_cons, hp', cond_false]
          rw [if_pos]
          simpa using Nat.succ_lt_succ hlt
        have h2 : selectIndex (rest.map p) = (rest.map p).findIdx (fun b => b) := by
          simp only [selectIndex]
          rw [if_pos hlt]
        rw [h2] at ih
        rw [h1, List.getD_cons_succ, ih]
        simp [List.find?_cons, hp', hfind]

/-- The draw `truncated_normal_` selects: the first of the candidates lying
strictly inside (-2, 2) when one exists, and the first candidate otherwise. -/
theorem selectDraw_eq_find_or_head (draws : List ℚ) :
    selectDraw draws =
      match draws.find? (fun v => decide (v < 2 ∧ -2 < v)) with
      | some v => v
      | none => draws.headD 0 :=
  getD_selectIndex (fun v => decide (v < 2 ∧ -2 < v)) draws

/-- When some candidate is strictly inside (-2, 2), the selected draw is too. -/
theorem selectDraw_mem_of_exists (draws : List ℚ)
    (h : ∃ v ∈ draws, v < 2 ∧ -2 < v) :
    -2 < selectDraw draws ∧ selectDraw draws < 2 := by
  rw [selectDraw_eq_find_or_head]
  rcases hfind : draws.find? (fun v => decide (v < 2 ∧ -2 < v)) with - | v
  · rcases h with ⟨v, hv, hv2⟩
    have := List.find?_eq_none.mp hfind v hv
    simp [hv2.1, hv2.2] at this
  · have := List.find?_some hfind
    simp at this
    exact ⟨this.2, this.1⟩

/-- Bound on a scaled selected draw with zero mean and nonnegative deviation. -/
theorem abs_truncNormalValue_le (draws : List ℚ) (std : ℚ) (hstd : 0 ≤ std)
    (h : ∃ v ∈ draws, v < 2 ∧ -2 < v) :
    |truncNormalValue draws 0 std| ≤ 2 * std := by
  obtain ⟨h1, h2⟩ := selectDraw_mem_of_exists draws h
  have habs : |selectDraw draws| ≤ 2 := by
    rw [abs_le]
    constructor <;> linarith
  calc |truncNormalValue draws 0 std| = |selectDraw draws * std| := by
        simp [truncNormalValue]
    _ = |selectDraw draws| * std := by rw [abs_mul, abs_of_nonneg hstd]
    _ ≤ 2 * std := by
        exact mul_le_mul_of_nonneg_right habs hstd

/-- Entry (i, j) of a truncated-normal initialized weight matrix. -/
theorem truncNormalMatrix_getD (rows cols : ℕ) (d : ℕ → ℕ → List ℚ) (mean std : ℚ)
    (i j : ℕ) (hi : i < rows) (hj : j < cols) :
    ((truncNormalMatrix rows cols d mean std).getD i []).getD j 0 =
      truncNormalValue (d i j) mean std := by
  unfold truncNormalMatrix
  rw [List.getD_eq_getElem?_getD _ i, List.getElem?_map, List.getElem?_range hi]
  simp only [Option.map_some', Option.getD_some]
  rw [List.getD_eq_getElem?_getD _ j, List.getElem?_map, List.getElem?_range hj]
  simp

/-- With the training flag off, a dropout call is the identity, whatever its
random mask. -/
theorem dropoutApply_eval (p : ℚ) (mask : ℕ → Bool) (t : Tensor) :
    dropoutApply p false mask t = t := rfl

theorem dot_self_eq (r : Vec) : dot r r = (r.map (fun x => x * x)).sum := by
  unfold dot
  rw [List.zipWith_same]

/-- Squared Frobenius norm of a matrix as a sum of row self-products. -/
theorem normSq_eq_sum_dot (m : Mat) : normSq m = (m.map (fun r => dot r r)).sum := by
  induction m with
  | nil => rfl
  | cons r rest ih =>
    simp only [normSq, List.flatten_cons, List.map_append, List.sum_append, List.map_cons,
      List.sum_cons] at ih ⊢
    rw [ih, dot_self_eq]

/-- C1: on the spec's own scenario (batch size 1, sequence length 5) the
forward call raises a hidden-state shape error at the second time step, because
`squeeze()` also removes the batch dimension when it is 1; the same model and
sequence at batch size 2 does return the five sequences with the claimed
time-major shapes. -/
theorem c1_forward_scenario_batch1_raises :
    sModel.forward id id (fun _ _ => false) sX sIC =
      .error "RuntimeError: Expected hidden[0] size mismatch" ∧
    (sModel.forward id id (fun _ _ => false) sX2 sIC2).map
        (fun o => (o.1.shape, o.2.1.shape, o.2.2.1.shape, o.2.2.2.1.shape, o.2.2.2.2.shape)) =
      .ok ([5, 2, 2], [5, 2, 4], [5, 2, 8], [5, 2, 8], [5, 2, 8]) :=
  ⟨rfl, rfl⟩

/-- C2: after a successful pretrained-weight load, the recurrent gate
parameters the forward pass uses (`weight_ih_l0`, `weight_hh_l0`, `bias_ih_l0`,
`bias_hh_l0`) still hold their pre-load values, while the two loaded gate
arrays sit in the fresh, unused attributes `lstm.weight` and `lstm.bias`. -/
theorem c2_loaded_lstm_gates_unused :
    (m0.init_weights_from_file "" fsFull).map
        (fun m => (m.lstm.weight_ih_l0, m.lstm.weight_hh_l0, m.lstm.bias_ih_l0,
                   m.lstm.bias_hh_l0, m.lstm.weight, m.lstm.bias)) =
      .ok ([[1, 1, 1]], [[1]], [1], [1], some [[11, 12, 13, 14]], some [15, 16, 17, 18]) ∧
    ([[1, 1, 1]] : Mat) ≠ [[11, 12, 13, 14]] ∧ ([1] : Vec) ≠ [15, 16, 17, 18] :=
  ⟨rfl, by decide, by decide⟩

/-- C6: with dropout disabled (evaluation mode) and fixed parameters, the
forward output does not depend on the dropout randomness, so two calls with
identical inputs return identical outputs in all five sequences. -/
theorem c6_forward_eval_deterministic (m : GridTorch) (hm : m.training = false)
    (σ τ : ℚ → ℚ) (mask1 mask2 : ℕ → ℕ → Bool) (x : List Mat) (ic : Mat × Mat) :
    m.forward σ τ mask1 x ic = m.forward σ τ mask2 x ic := by
  unfold GridTorch.forward
  have hdrop : (fun i t => dropoutApply m.dropoutrates_bottleneck m.training (mask1 i) t) =
      (fun i t => dropoutApply m.dropoutrates_bottleneck m.training (mask2 i) t) := by
    funext i t
    rw [hm, dropoutApply_eval, dropoutApply_eval]
  rw [hdrop]

theorem c6_witness :
    sModel.forward id id (fun _ _ => true) sX2 sIC2 =
      sModel.forward id id (fun _ _ => false) sX2 sIC2 :=
  c6_forward_eval_deterministic sModel rfl id id (fun _ _ => true) (fun _ _ => false) sX2 sIC2

/-- C7: `l2_loss` depends only on the bottleneck, place-cell-logit and
head-direction-logit weight tensors, and equals the sum of the square roots of
the three squared Euclidean norms of exactly those tensors. -/
theorem c7_l2_loss_sum_of_norms (sqrt : ℚ → ℚ) (m m' : GridTorch)
    (hb : m.bottleneck.weight = m'.bottleneck.weight)
    (hp : m.pc_logits.weight = m'.pc_logits.weight)
    (hh : m.hd_logits.weight = m'.hd_logits.weight) :
    GridTorch.l2_loss sqrt m = GridTorch.l2_loss sqrt m' ∧
    GridTorch.l2_loss sqrt m =
      sqrt ((m.bottleneck.weight.map (fun r => dot r r)).sum) +
      sqrt ((m.pc_logits.weight.map (fun r => dot r r)).sum) +
      sqrt ((m.hd_logits.weight.map (fun r => dot r r)).sum) := by
  constructor
  · unfold GridTorch.l2_loss
    rw [hb, hp, hh]
  · unfold GridTorch.l2_loss
    rw [normSq_eq_sum_dot, normSq_eq_sum_dot, normSq_eq_sum_dot]

theorem c7_witness :
    GridTorch.l2_loss id m0 = GridTorch.l2_loss id m0var ∧
    GridTorch.l2_loss id m0 =
      id ((m0.bottleneck.weight.map (fun r => dot r r)).sum) +
      id ((m0.pc_logits.weight.map (fun r => dot r r)).sum) +
      id ((m0.hd_logits.weight.map (fun r => dot r r)).sum) :=
  c7_l2_loss_sum_of_norms id m0 m0var rfl rfl rfl

/-- C8: loading pretrained weights is idempotent — a second load from the same
location maps the once-loaded model to itself. -/
theorem c8_load_idempotent (m m' : GridTorch) (loc : String) (fs : String → Option NpArray)
    (h : m.init_weights_from_file loc fs = .ok m') :
    m'.init_weights_from_file loc fs = .ok m' := by
  unfold GridTorch.init_weights_from_file at h ⊢
  cases h1 : loadWeight fs (loc ++ "grid_cells_core_pc_logits_w_0.npy") <;> rw [h1] at h <;>
    simp only [exceptOkBind, exceptErrorBind] at h ⊢ <;> try exact Except.noConfusion h
  cases h2 : loadBias fs (loc ++ "grid_cells_core_pc_logits_b_0.npy") <;> rw [h2] at h <;>
    simp only [exceptOkBind, exceptErrorBind] at h ⊢ <;> try exact Except.noConfusion h
  cases h3 : loadWeight fs (loc ++ "grid_cells_core_pc_logits_1_w_0.npy") <;> rw [h3] at h <;>
    simp only [exceptOkBind, exceptErrorBind] at h ⊢ <;> try exact Except.noConfusion h
  cases h4 : loadBias fs (loc ++ "grid_cells_core_pc_logits_1_b_0.npy") <;> rw [h4] at h <;>
    simp only [exceptOkBind, exceptErrorBind] at h ⊢ <;> try exact Except.noConfusion h
  cases h5 : loadWeight fs (loc ++ "grid_cells_core_bottleneck_w_0.npy") <;> rw [h5] at h <;>
    simp only [exceptOkBind, exceptErrorBind] at h ⊢ <;> try exact Except.noConfusion h
  cases h6 : loadWeight fs (loc ++ "grid_cell_supervised_state_init_w_0.npy") <;> rw [h6] at h <;>
    simp only [exceptOkBind, exceptErrorBind] at h ⊢ <;> try exact Except.noConfusion h
  cases h7 : loadBias fs (loc ++ "grid_cell_supervised_state_init_b_0.npy") <;> rw [h7] at h <;>
    simp only [exceptOkBind, exceptErrorBind] at h ⊢ <;> try exact Except.noConfusion h
  cases h8 : loadWeight fs (loc ++ "grid_cell_supervised_cell_init_w_0.npy") <;> rw [h8] at h <;>
    simp only [exceptOkBind, exceptErrorBind] at h ⊢ <;> try exact Except.noConfusion h
  cases h9 : loadBias fs (loc ++ "grid_cell_supervised_cell_init_b_0.npy") <;> rw [h9] at h <;>
    simp only [exceptOkBind, exceptErrorBind] at h ⊢ <;> try exact Except.noConfusion h
  cases h10 : loadWeight fs (loc ++ "grid_cells_core_lstm_w_gates_0.npy") <;> rw [h10] at h <;>
    simp only [exceptOkBind, exceptErrorBind] at h ⊢ <;> try exact Except.noConfusion h
  cases h11 : loadBias fs (loc ++ "grid_cells_core_lstm_b_gates_0.npy") <;> rw [h11] at h <;>
    simp only [exceptOkBind, exceptErrorBind] at h ⊢ <;> try exact Except.noConfusion h
  obtain rfl : _ = m' := Except.ok.inj h
  rfl

theorem c8_witness : m1.init_weights_from_file "" fsFull = .ok m1 :=
  c8_load_idempotent m0 m1 "" fsFull rfl

/-- C3 (counterexample): with the four draws 5, 3, 4, -3 — none strictly inside
(-2, 2) — the code selects the first draw, 5 (the boolean argmax of an all-false
row is index 0), not the nearest-out-of-range draw 3 that the claim says gets
selected. -/
theorem c3_nearest_fallback_refuted :
    truncNormalValue [5, 3, 4, -3] 0 1 = 5 ∧
    specTruncSelect [5, 3, 4, -3] = 3 ∧ (5 : ℚ) ≠ 3 := by
  refine ⟨?_, ?_, by norm_num⟩
  · norm_num [truncNormalValue, selectDraw, selectIndex, List.findIdx_cons]
  · norm_num [specTruncSelect, specTruncSelect.distToRange, List.find?_cons]

/-- C3 (amended): the selected value is the first draw strictly inside (-2, 2)
when one of the 4 candidates is, and otherwise the first candidate (not the
nearest-out-of-range one); the result is then scaled by `std` and shifted by
`mean`. -/
theorem c3_select_first_in_range_else_first_draw (draws : List ℚ) (mean std : ℚ)
    (h4 : draws.length = 4) :
    truncNormalValue draws mean std =
      (match draws.find? (fun v => decide (v < 2 ∧ -2 < v)) with
       | some v => v
       | none => draws.headD 0) * std + mean := by
  unfold truncNormalValue
  rw [selectDraw_eq_find_or_head]

theorem c3_witness :
    truncNormalValue [5, 1, 4, -3] 7 2 =
      (match ([5, 1, 4, -3] : List ℚ).find? (fun v => decide (v < 2 ∧ -2 < v)) with
       | some v => v
       | none => ([5, 1, 4, -3] : List ℚ).headD 0) * 2 + 7 :=
  c3_select_first_in_range_else_first_draw [5, 1, 4, -3] 7 2 rfl

/-- Evaluation of the constructor at the all-width-1 configuration with draws
constantly 1 and `invSqrt = Nat.cast`: every truncated-normal weight entry
displays the size that was passed to `init_trunc_normal`. -/
theorem tinyInit_cast_eq :
    GridTorch.init tinyCfg [⟨1⟩, ⟨1⟩] rng1 (fun n => (n : ℚ)) none (fun _ => none) =
      .ok MC4 := by
  unfold GridTorch.init
  simp only [List.getElem?_cons_zero, List.getElem?_cons_succ, exceptOkBind]
  norm_num [MC4, tinyCfg, rng1, init_trunc_normal, truncNormalMatrix, truncNormalValue,
    selectDraw, selectIndex, mkMat, zeros, List.range_succ, List.findIdx_cons, List.replicate]

/-- Evaluation of the constructor at the all-width-1 configuration with draws
constantly 1 and `invSqrt ≡ 0`: all truncated-normal weight entries are 0. -/
theorem tinyInit_zero_eq :
    GridTorch.init tinyCfg [⟨1⟩, ⟨1⟩] rng1 (fun _ => 0) none (fun _ => none) = .ok M0 := by
  unfold GridTorch.init
  simp only [List.getElem?_cons_zero, List.getElem?_cons_succ, exceptOkBind]
  norm_num [M0, tinyCfg, rng1, init_trunc_normal, truncNormalMatrix, truncNormalValue,
    selectDraw, selectIndex, mkMat, zeros, List.range_succ, List.findIdx_cons, List.replicate]

/-- C4 (counterexample): at an all-width-1 configuration — with every candidate
draw equal to 1 and `invSqrt = Nat.cast`, so that each weight entry displays the
size passed to `init_trunc_normal` — the construction uses the sizes 128, 256
and 12 for the state-embed, bottleneck and head-direction layers, while those
layers' input widths are 2, 1 and 1; the hard-coded size list also differs from
the input widths at the default configuration. -/
theorem c4_fanin_neq_input_width :
    (GridTorch.init tinyCfg [⟨1⟩, ⟨1⟩] rng1 (fun n => (n : ℚ)) none (fun _ => none)).map
        (fun m => (m.state_embed.weight, m.bottleneck.weight, m.hd_logits.weight)) =
      .ok ([[128, 128]], [[256]], [[12]]) ∧
    layerInputWidths tinyCfg = [2, 2, 1, 1, 1] ∧
    ([128, 128, 256, 256, 12] : List ℕ) ≠ layerInputWidths tinyCfg ∧
    ([128, 128, 256, 256, 12] : List ℕ) ≠ layerInputWidths defaultConfig := by
  refine ⟨?_, by decide, by decide, by decide⟩
  rw [tinyInit_cast_eq]
  rfl

/-- C4 (amended): the truncated-normal initialization passes the fixed sizes
128, 128, 256, 256, 12 for the five layers' weights regardless of the
configuration; these are not the layers' input widths in general — at the
default configuration the input widths are 268, 268, 128, 256, 256, agreeing
only for the place-cell-logits layer. -/
theorem c4_sizes_hardcoded (cfg : GridConfig) (ens : List Ensemble) (rng : InitRng)
    (invSqrt : ℕ → ℚ) (fs : String → Option NpArray) (e0 e1 : Ensemble) (m : GridTorch)
    (h0 : ens[0]? = some e0) (h1 : ens[1]? = some e1)
    (h : GridTorch.init cfg ens rng invSqrt none fs = .ok m) :
    m.state_embed.weight =
      init_trunc_normal invSqrt cfg.nh_lstm (cfg.n_pcs + cfg.n_hdcs) (rng.draws 0) 128 ∧
    m.cell_embed.weight =
      init_trunc_normal invSqrt cfg.nh_lstm (cfg.n_pcs + cfg.n_hdcs) (rng.draws 1) 128 ∧
    m.bottleneck.weight =
      init_trunc_normal invSqrt cfg.nh_bottleneck cfg.nh_lstm (rng.draws 2) 256 ∧
    m.pc_logits.weight =
      init_trunc_normal invSqrt e0.n_cells cfg.nh_bottleneck (rng.draws 3) 256 ∧
    m.hd_logits.weight =
      init_trunc_normal invSqrt e1.n_cells cfg.nh_bottleneck (rng.draws 4) 12 ∧
    layerInputWidths defaultConfig = [268, 268, 128, 256, 256] ∧
    ([128, 128, 256, 256, 12] : List ℕ) ≠ layerInputWidths defaultConfig := by
  unfold GridTorch.init at h
  rw [h0, h1] at h
  simp only [exceptOkBind] at h
  obtain rfl : _ = m := Except.ok.inj h
  exact ⟨rfl, rfl, rfl, rfl, rfl, by decide, by decide⟩

theorem c4_witness :
    MC4.state_embed.weight =
      init_trunc_normal (fun n => (n : ℚ)) tinyCfg.nh_lstm (tinyCfg.n_pcs + tinyCfg.n_hdcs)
        (rng1.draws 0) 128 :=
  (c4_sizes_hardcoded tinyCfg [⟨1⟩, ⟨1⟩] rng1 (fun n => (n : ℚ)) (fun _ => none)
    ⟨1⟩ ⟨1⟩ MC4 rfl rfl tinyInit_cast_eq).1

/-- C5 (counterexample): at an all-width-1 configuration, when the four
place-cell-layer draws are all 100 (none in range), the constructed place-cell
weight entry is 100·(1/16) = 25/4, which exceeds the claimed truncation bound
2/√(fan-in) = 2·1 for that layer's input width 1. -/
theorem c5_range_refuted :
    (GridTorch.init tinyCfg [⟨1⟩, ⟨1⟩] rng100 invSqrtApprox none (fun _ => none)).map
        (fun m => m.pc_logits.weight) = .ok [[25/4]] ∧
    ¬ |(25/4 : ℚ)| ≤ 2 * 1 := by
  constructor
  · unfold GridTorch.init
    simp only [List.getElem?_cons_zero, List.getElem?_cons_succ, exceptOkBind]
    norm_num [tinyCfg, rng100, invSqrtApprox, init_trunc_normal, truncNormalMatrix,
      truncNormalValue, selectDraw, selectIndex, mkMat, zeros, List.range_succ,
      List.findIdx_cons, List.replicate, Except.map]
  · rw [abs_of_pos (by norm_num)]
    norm_num

/-- C5 (amended): constructing the model without a pretrained-weights location
zero-initializes the biases of the embedding and output layers and of the
recurrent cell; each truncated-normal weight entry whose element has at least
one of its 4 draws strictly inside (-2, 2) is bounded by 2·invSqrt(size) for
the hard-coded size of its layer (128, 128, 256, 256, 12 — not the layer's
fan-in); entries all four of whose draws fall outside may exceed any such
bound. -/
theorem c5_init_bounds_and_zero_biases (cfg : GridConfig) (ens : List Ensemble)
    (rng : InitRng) (invSqrt : ℕ → ℚ) (fs : String → Option NpArray) (e0 e1 : Ensemble)
    (m : GridTorch) (hinv : ∀ n, 0 ≤ invSqrt n)
    (he0 : ens[0]? = some e0) (he1 : ens[1]? = some e1)
    (hm : GridTorch.init cfg ens rng invSqrt none fs = .ok m) :
    (m.state_embed.bias = some (zeros cfg.nh_lstm) ∧
     m.cell_embed.bias = some (zeros cfg.nh_lstm) ∧
     m.pc_logits.bias = some (zeros e0.n_cells) ∧
     m.hd_logits.bias = some (zeros e1.n_cells) ∧
     m.lstm.bias_ih_l0 = zeros (4 * cfg.nh_lstm) ∧
     m.lstm.bias_hh_l0 = zeros (4 * cfg.nh_lstm)) ∧
    ((∀ i j, i < cfg.nh_lstm → j < cfg.n_pcs + cfg.n_hdcs →
        (∃ v ∈ rng.draws 0 i j, v < 2 ∧ -2 < v) →
        |matEntry m.state_embed.weight i j| ≤ 2 * invSqrt 128) ∧
     (∀ i j, i < cfg.nh_lstm → j < cfg.n_pcs + cfg.n_hdcs →
        (∃ v ∈ rng.draws 1 i j, v < 2 ∧ -2 < v) →
        |matEntry m.cell_embed.weight i j| ≤ 2 * invSqrt 128) ∧
     (∀ i j, i < cfg.nh_bottleneck → j < cfg.nh_lstm →
        (∃ v ∈ rng.draws 2 i j, v < 2 ∧ -2 < v) →
        |matEntry m.bottleneck.weight i j| ≤ 2 * invSqrt 256) ∧
     (∀ i j, i < e0.n_cells → j < cfg.nh_bottleneck →
        (∃ v ∈ rng.draws 3 i j, v < 2 ∧ -2 < v) →
        |matEntry m.pc_logits.weight i j| ≤ 2 * invSqrt 256) ∧
     (∀ i j, i < e1.n_cells → j < cfg.nh_bottleneck →
        (∃ v ∈ rng.draws 4 i j, v < 2 ∧ -2 < v) →
        |matEntry m.hd_logits.weight i j| ≤ 2 * invSqrt 12)) := by
  unfold GridTorch.init at hm
  rw [he0, he1] at hm
  simp only [exceptOkBind] at hm
  obtain rfl : _ = m := Except.ok.inj hm
  refine ⟨⟨rfl, rfl, rfl, rfl, rfl, rfl⟩, ?_, ?_, ?_, ?_, ?_⟩ <;>
  · intro i j hi hj hex
    dsimp only [matEntry, init_trunc_normal]
    rw [truncNormalMatrix_getD _ _ _ _ _ i j hi hj]
    exact abs_truncNormalValue_le _ _ (hinv _) hex

theorem c5_witness :
    M0.state_embed.bias = some (zeros tinyCfg.nh_lstm) ∧
    |matEntry M0.pc_logits.weight 0 0| ≤ 2 * 0 := by
  have H := c5_init_bounds_and_zero_biases tinyCfg [⟨1⟩, ⟨1⟩] rng1 (fun _ => 0)
    (fun _ => none) ⟨1⟩ ⟨1⟩ M0 (fun _ => le_refl 0) rfl rfl tinyInit_zero_eq
  exact ⟨H.1.1, H.2.2.2.2.1 0 0 (by decide) (by decide) ⟨1, by decide, by decide⟩⟩

/-- C9 (counterexample): a weight directory holding only eight arrays does not
suffice for a load — the routine proceeds past eight reads and fails on the
ninth file — and the list of files a load consults has eleven entries, not
eight. -/
theorem c9_eight_reads_refuted :
    m0.init_weights_from_file "" fs8 =
      .error "FileNotFoundError: grid_cell_supervised_cell_init_b_0.npy" ∧
    (weightFileNames "").length ≠ 8 :=
  ⟨rfl, by decide⟩

/-- C9 (amended): the load consults exactly the eleven weight/bias files of
`weightFileNames` (its result depends on the file system only through them),
and a missing file makes the load — and hence a construction that requested it
with a truthy (non-empty) location — fail with an error that is not caught
anywhere in the module. -/
theorem c9_missing_file_fails_eleven_reads :
    (∀ loc : String, (weightFileNames loc).length = 11) ∧
    (∀ (m : GridTorch) (loc : String) (fs fs' : String → Option NpArray),
      (∀ n ∈ weightFileNames loc, fs n = fs' n) →
      m.init_weights_from_file loc fs = m.init_weights_from_file loc fs') ∧
    (∀ (cfg : GridConfig) (ens : List Ensemble) (rng : InitRng) (invSqrt : ℕ → ℚ)
        (loc : String) (fs : String → Option NpArray),
      loc ≠ "" →
      fs (loc ++ "grid_cells_core_pc_logits_w_0.npy") = none →
      ∀ r : GridTorch, GridTorch.init cfg ens rng invSqrt (some loc) fs ≠ .ok r) := by
  refine ⟨fun loc => rfl, ?_, ?_⟩
  · intro m loc fs fs' h
    have e1 := h (loc ++ "grid_cells_core_pc_logits_w_0.npy") (by simp [weightFileNames])
    have e2 := h (loc ++ "grid_cells_core_pc_logits_b_0.npy") (by simp [weightFileNames])
    have e3 := h (loc ++ "grid_cells_core_pc_logits_1_w_0.npy") (by simp [weightFileNames])
    have e4 := h (loc ++ "grid_cells_core_pc_logits_1_b_0.npy") (by simp [weightFileNames])
    have e5 := h (loc ++ "grid_cells_core_bottleneck_w_0.npy") (by simp [weightFileNames])
    have e6 := h (loc ++ "grid_cell_supervised_state_init_w_0.npy") (by simp [weightFileNames])
    have e7 := h (loc ++ "grid_cell_supervised_state_init_b_0.npy") (by simp [weightFileNames])
    have e8 := h (loc ++ "grid_cell_supervised_cell_init_w_0.npy") (by simp [weightFileNames])
    have e9 := h (loc ++ "grid_cell_supervised_cell_init_b_0.npy") (by simp [weightFileNames])
    have e10 := h (loc ++ "grid_cells_core_lstm_w_gates_0.npy") (by simp [weightFileNames])
    have e11 := h (loc ++ "grid_cells_core_lstm_b_gates_0.npy") (by simp [weightFileNames])
    simp only [GridTorch.init_weights_from_file, loadWeight, loadBias, np_load,
      e1, e2, e3, e4, e5, e6, e7, e8, e9, e10, e11]
  · intro cfg ens rng invSqrt loc fs hne hmiss r hok
    unfold GridTorch.init at hok
    cases he0 : ens[0]? with
    | none => rw [he0] at hok; exact Except.noConfusion hok
    | some e0 =>
      cases he1 : ens[1]? with
      | none => rw [he0, he1] at hok; exact Except.noConfusion hok
      | some e1 =>
        rw [he0, he1] at hok
        simp only [exceptOkBind] at hok
        rw [if_neg hne] at hok
        unfold GridTorch.init_weights_from_file loadWeight np_load at hok
        rw [hmiss] at hok
        simp only [exceptErrorBind] at hok
        exact Except.noConfusion hok

theorem c9_witness :
    GridTorch.init tinyCfg [⟨1⟩, ⟨1⟩] rng1 (fun _ => 0) (some "weights/") (fun _ => none) ≠
      .ok M0 :=
  c9_missing_file_fails_eleven_reads.2.2 tinyCfg [⟨1⟩, ⟨1⟩] rng1 (fun _ => 0) "weights/"
    (fun _ => none) (by decide) rfl M0

/-- C10: reading a too-short `target_ensembles` list fails with an IndexError
before any forward call is possible, and for lists agreeing on their first two
elements the construction produces the same model except for the stored list
itself — in particular the two output-head widths depend on elements 0 and 1
alone. -/
theorem c10_target_ensembles_first_two (cfg : GridConfig) (ens ens' : List Ensemble)
    (rng : InitRng) (invSqrt : ℕ → ℚ) (fs : String → Option NpArray) :
    (ens.length < 2 →
      GridTorch.init cfg ens rng invSqrt none fs =
        .error "IndexError: list index out of range") ∧
    (ens.take 2 = ens'.take 2 →
      ∀ m : GridTorch, GridTorch.init cfg ens rng invSqrt none fs = .ok m →
        GridTorch.init cfg ens' rng invSqrt none fs =
          .ok { m with target_ensembles := ens' }) := by
  constructor
  · intro hlen
    match ens, hlen with
    | [], _ => rfl
    | [e], _ => rfl
  · intro htake m h
    have g0 : ens[0]? = ens'[0]? := by
      have := congrArg (fun l => l[0]?) htake
      simpa [List.getElem?_take] using this
    have g1 : ens[1]? = ens'[1]? := by
      have := congrArg (fun l => l[1]?) htake
      simpa [List.getElem?_take] using this
    unfold GridTorch.init at h ⊢
    cases he0 : ens[0]? with
    | none => rw [he0] at h; exact Except.noConfusion h
    | some e0 =>
      cases he1 : ens[1]? with
      | none => rw [he0, he1] at h; exact Except.noConfusion h
      | some e1 =>
        rw [he0, he1] at h
        rw [← g0, ← g1, he0, he1]
        simp only [exceptOkBind] at h ⊢
        obtain rfl : _ = m := Except.ok.inj h
        rfl

theorem c10_witness :
    GridTorch.init tinyCfg [⟨1⟩] rng1 (fun _ => 0) none (fun _ => none) =
      .error "IndexError: list index out of range" ∧
    GridTorch.init tinyCfg [⟨1⟩, ⟨1⟩, ⟨9⟩] rng1 (fun _ => 0) none (fun _ => none) =
      .ok { M0 with target_ensembles := [⟨1⟩, ⟨1⟩, ⟨9⟩] } :=
  ⟨(c10_target_ensembles_first_two tinyCfg [⟨1⟩] [] rng1 (fun _ => 0) (fun _ => none)).1
      (by decide),
   (c10_target_ensembles_first_two tinyCfg [⟨1⟩, ⟨1⟩] [⟨1⟩, ⟨1⟩, ⟨9⟩] rng1 (fun _ => 0)
      (fun _ => none)).2 rfl M0 tinyInit_zero_eq⟩

end ModelLSTM
